import Mathlib

/-!
Shallow embedding of the GPS tracking server in `src/app.py` (Flask app:
ingestion endpoint `POST /location`, CSV append-only store, latest-per-device
reduction, query endpoints and the SSE change stream), together with proofs
of the specification claims.

Modelling conventions:
* JSON values are the inductive `JsonVal`; Python's `None` and JSON `null`
  coincide as `JsonVal.null` (both are what `dict.get` returns for an absent
  key and both make `float(...)` raise).
* Python truthiness (used by the `or` fallback chains in the source) is the
  boolean `truthy`.
* Python's `float(...)` builtin is `pyFloat` / `pyFloatOfString`: it accepts
  numbers, booleans and numeric strings including "inf", "infinity" and
  "nan" (case-insensitive, optionally signed, surrounding whitespace
  stripped), and raises (here: `none`) on anything else.  Finite values are
  idealized as rationals.
* The CSV store is a list of `Row` (all cells are strings, as `csv.DictReader`
  yields them); a store whose file is missing or unreadable is `none` in
  `Option (List Row)` - the bare `except` handlers in the source map it to
  an empty result.
* Wall-clock time (`datetime.utcnow`) is passed in as the `now : String`
  argument; decimal rendering of numbers (`str()` on floats) is abstracted
  by `ratRepr`, whose only property the claims use is nonemptiness.
-/

namespace PTTrack

/-- JSON values as decoded by `request.get_json`. -/
inductive JsonVal : Type
  | null : JsonVal
  | bool : Bool → JsonVal
  | num : ℚ → JsonVal
  | str : String → JsonVal
  | arr : List JsonVal → JsonVal
  | obj : List (String × JsonVal) → JsonVal

/-- Python truthiness of a JSON value (`None`, `False`, `0`, `""`, `[]`,
`{}` are falsy; everything else is truthy). -/
def truthy : JsonVal → Bool
  | .null => false
  | .bool b => b
  | .str s => !(s == "")
  | .num q => decide (q ≠ 0)
  | .arr xs => !xs.isEmpty
  | .obj fs => !fs.isEmpty

/-- Python's `data.get(k)` on a dict decoded from JSON: the value of the last
occurrence of the key, or `None` when absent (JSON object decoding keeps the
last duplicate key). -/
def objGet (fields : List (String × JsonVal)) (k : String) : JsonVal :=
  match (fields.filter (fun p => p.1 == k)).getLast? with
  | some p => p.2
  | none => .null

/-- Python's `a or b`: `a` if truthy, else `b`. -/
def pyOr (a b : JsonVal) : JsonVal :=
  if truthy a then a else b

/-- A Python float: finite (idealized as an exact rational), the two
infinities, or NaN. -/
inductive PyFloat : Type
  | finite : ℚ → PyFloat
  | inf : PyFloat
  | ninf : PyFloat
  | nan : PyFloat
deriving DecidableEq

/-- Value of a list of decimal digit characters. -/
def digitsVal (cs : List Char) : Nat :=
  cs.foldl (fun a c => a * 10 + (c.toNat - 48)) 0

/-- Parse an unsigned Python float literal (decimal digits, optional
fractional part, optional exponent).  `none` models `float(...)` raising
`ValueError`. -/
def parseUDec (cs : List Char) : Option ℚ :=
  let ms := cs.span (fun c => !(c == 'e') && !(c == 'E'))
  let expVal : Option Int :=
    match ms.2 with
    | [] => some 0
    | _ :: t =>
      match t with
      | '+' :: ds => if !ds.isEmpty && ds.all Char.isDigit then some (digitsVal ds : Int) else none
      | '-' :: ds => if !ds.isEmpty && ds.all Char.isDigit then some (-(digitsVal ds : Int)) else none
      | ds => if !ds.isEmpty && ds.all Char.isDigit then some (digitsVal ds : Int) else none
  let ipfp := ms.1.span (fun c => !(c == '.'))
  let mantVal : Option ℚ :=
    match ipfp.2 with
    | [] =>
      if !ipfp.1.isEmpty && ipfp.1.all Char.isDigit then some ((digitsVal ipfp.1 : ℚ))
      else none
    | _ :: fp =>
      if (!ipfp.1.isEmpty || !fp.isEmpty) && ipfp.1.all Char.isDigit && fp.all Char.isDigit then
        some ((digitsVal ipfp.1 : ℚ) + (digitsVal fp : ℚ) / ((10 : ℚ) ^ fp.length))
      else none
  match mantVal, expVal with
  | some m, some e => some (m * (10 : ℚ) ^ e)
  | _, _ => none

/-- Python's `float(s)` on a string: strips whitespace, optional sign,
accepts `inf` / `infinity` / `nan` case-insensitively, else a decimal
literal.  `none` models a `ValueError`. -/
def pyFloatOfString (s : String) : Option PyFloat :=
  let cs := ((s.data.dropWhile Char.isWhitespace).reverse.dropWhile Char.isWhitespace).reverse
  let signNeg : Bool := match cs with | '-' :: _ => true | _ => false
  let body : List Char := match cs with | '+' :: t => t | '-' :: t => t | t => t
  let lb := body.map Char.toLower
  if lb = ['i', 'n', 'f'] ∨ lb = ['i', 'n', 'f', 'i', 'n', 'i', 't', 'y'] then
    some (if signNeg then .ninf else .inf)
  else if lb = ['n', 'a', 'n'] then some .nan
  else
    match parseUDec body with
    | some q => some (.finite (if signNeg then -q else q))
    | none => none

/-- Python's `float(x)` on an arbitrary value: numbers and booleans convert,
strings are parsed, everything else (`None`, lists, dicts) raises
(`none`). -/
def pyFloat : JsonVal → Option PyFloat
  | .num q => some (.finite q)
  | .bool b => some (.finite (if b then 1 else 0))
  | .str s => pyFloatOfString s
  | _ => none

/-- Digit characters of `n`, most significant first, prepended to `acc`. -/
def natReprAux : Nat → List Char → List Char
  | 0, acc => acc
  | n + 1, acc => natReprAux ((n + 1) / 10) (Char.ofNat (48 + (n + 1) % 10) :: acc)
decreasing_by exact Nat.div_lt_self (Nat.succ_pos n) (by decide)

/-- Decimal rendering of a natural number. -/
def natRepr (n : Nat) : String :=
  if n = 0 then "0" else ⟨natReprAux n []⟩

/-- Decimal-style rendering of a rational; abstracts Python's `str()` on the
numbers the server writes into CSV cells.  The claims only rely on the
result being nonempty. -/
def ratRepr (q : ℚ) : String :=
  (if q.num < 0 then "-" else "") ++ natRepr q.num.natAbs ++
    (if q.den = 1 then "" else "/" ++ natRepr q.den)

/-- Python's `str()` on a float value, as written into a CSV cell. -/
def floatRepr : PyFloat → String
  | .finite q => ratRepr q
  | .inf => "inf"
  | .ninf => "-inf"
  | .nan => "nan"

mutual

/-- JSON serialization (`json.dumps`), used for the `raw_json` column. -/
def dumpsVal : JsonVal → String
  | .null => "null"
  | .bool b => if b then "true" else "false"
  | .num q => ratRepr q
  | .str s => "\"" ++ s ++ "\""
  | .arr xs => "[" ++ dumpsList xs ++ "]"
  | .obj fs => "\x7b" ++ dumpsFields fs ++ "\x7d"

/-- Serialize the elements of a JSON array. -/
def dumpsList : List JsonVal → String
  | [] => ""
  | [x] => dumpsVal x
  | x :: y :: xs => dumpsVal x ++ ", " ++ dumpsList (y :: xs)

/-- Serialize the fields of a JSON object. -/
def dumpsFields : List (String × JsonVal) → String
  | [] => ""
  | [(k, v)] => "\"" ++ k ++ "\": " ++ dumpsVal v
  | (k, v) :: f :: fs => "\"" ++ k ++ "\": " ++ dumpsVal v ++ ", " ++ dumpsFields (f :: fs)

end

/-- Rendering of a value written as a CSV cell by `csv.writer`
(Python `str()`: `None` becomes the empty cell, booleans `True` / `False`,
numbers their decimal form, strings themselves). -/
def cellStr : JsonVal → String
  | .null => ""
  | .bool b => if b then "True" else "False"
  | .num q => ratRepr q
  | .str s => s
  | .arr xs => dumpsVal (.arr xs)
  | .obj fs => dumpsVal (.obj fs)

/-- One row of the append-only CSV store `bus.csv`, in the column order
written by `init_csv` / `location`.  All cells are strings, as
`csv.DictReader` returns them. -/
structure Row : Type where
  device_id : String
  latitude : String
  longitude : String
  accuracy : String
  provider : String
  timestamp_iso : String
  timestamp_raw : String
  received_at : String
  raw_json : String
deriving DecidableEq

/-- The resolved device id of `location`:
`data.get("device_id") or data.get("tid") or data.get("topic") or "unknown"`. -/
def resolveDevice (fields : List (String × JsonVal)) : JsonVal :=
  pyOr (objGet fields "device_id")
    (pyOr (objGet fields "tid") (pyOr (objGet fields "topic") (.str "unknown")))

/-- The resolved latitude of `location`:
`data.get("lat") or data.get("latitude")`. -/
def resolveLat (fields : List (String × JsonVal)) : JsonVal :=
  pyOr (objGet fields "lat") (objGet fields "latitude")

/-- The resolved longitude of `location`:
`data.get("lon") or data.get("longitude")`. -/
def resolveLon (fields : List (String × JsonVal)) : JsonVal :=
  pyOr (objGet fields "lon") (objGet fields "longitude")

/-- The resolved accuracy of `location`:
`data.get("accuracy") or data.get("acc") or ""`. -/
def resolveAccuracy (fields : List (String × JsonVal)) : JsonVal :=
  pyOr (objGet fields "accuracy") (pyOr (objGet fields "acc") (.str ""))

/-- The resolved provider of `location`:
`data.get("provider") or data.get("t") or data.get("source") or ""`. -/
def resolveProvider (fields : List (String × JsonVal)) : JsonVal :=
  pyOr (objGet fields "provider") (pyOr (objGet fields "t") (pyOr (objGet fields "source") (.str "")))

/-- The status-message test of `location`: `data.get("_type") == "status"`. -/
def isStatus (fields : List (String × JsonVal)) : Bool :=
  match objGet fields "_type" with
  | .str s => s == "status"
  | _ => false

/-- Abstraction of the string built by
`datetime.fromtimestamp(tst, timezone.utc).isoformat()` for an in-range
epoch; no claim inspects timestamp strings. -/
def isoOfEpoch (q : ℚ) : String :=
  "epoch+" ++ ratRepr q ++ "s"

/-- Whether `datetime.fromtimestamp(q, timezone.utc)` succeeds: the epoch
value must land inside the supported datetime range (year 1 to 9999, i.e.
-62135596800 up to 253402300800 seconds relative to 1970-01-01); outside it
the call raises `ValueError` (or `OverflowError`).  The sub-microsecond
rounding at the upper edge is idealized to a rational comparison. -/
def pyFromtimestampOk (q : ℚ) : Bool :=
  decide (-62135596800 ≤ q ∧ q < 253402300800)

/-- `parse_timestamp` of `src/app.py` on a dict (the endpoint crashes before
calling it on anything else): an ISO string timestamp is used verbatim, a
numeric OwnTracks `tst` (booleans are `int` instances in Python) is
converted with `datetime.fromtimestamp` - which raises for an out-of-range
value (`none` here, an uncaught exception in the program) - otherwise the
current server time `now` is used and the raw timestamp is `None`. -/
def parse_timestamp (fields : List (String × JsonVal)) (now : String) :
    Option (String × Option JsonVal) :=
  match objGet fields "timestamp" with
  | .str s => some (s, some (.str s))
  | _ =>
    match objGet fields "tst" with
    | .num q =>
      if pyFromtimestampOk q then some (isoOfEpoch q, some (.num q)) else none
    | .bool b =>
      if pyFromtimestampOk (if b then 1 else 0) then
        some (isoOfEpoch (if b then 1 else 0), some (.bool b))
      else none
    | _ => some (now, none)

/-- The CSV row appended by a successful `POST /location` with decoded
object fields `fields`, at server time `now`, with parsed timestamp pair
`ts` and validated coordinates `la`, `lo`. -/
def mkRow (fields : List (String × JsonVal)) (now : String)
    (ts : String × Option JsonVal) (la lo : PyFloat) : Row where
  device_id := cellStr (resolveDevice fields)
  latitude := floatRepr la
  longitude := floatRepr lo
  accuracy := cellStr (resolveAccuracy fields)
  provider := cellStr (resolveProvider fields)
  timestamp_iso := ts.1
  timestamp_raw :=
    match ts.2 with
    | none => ""
    | some v => cellStr v
  received_at := now
  raw_json := dumpsVal (.obj fields)

/-- Outcome of a `POST /location` request. -/
inductive LocResponse : Type
  /-- `400 "error": "missing json"` (body absent, unparseable, or JSON `null`). -/
  | missingJson : LocResponse
  /-- `200 "status": "ignored"` (OwnTracks status message). -/
  | ignored : LocResponse
  /-- `400 "error": "bad lat/lon"` (coordinate validation failed). -/
  | badLatLon : LocResponse
  /-- `201 "status": "ok"` (row appended). -/
  | ok : LocResponse
  /-- Unhandled `AttributeError`: `data.get` on a non-dict body (HTTP 500,
  not a structured response). -/
  | attrError : LocResponse
  /-- Unhandled `ValueError` from `datetime.fromtimestamp` on an
  out-of-range numeric `tst` (HTTP 500, not a structured response). -/
  | valueError : LocResponse
deriving DecidableEq

/-- The `POST /location` endpoint of `src/app.py`.  `data` is the result of
`request.get_json(force=True, silent=True)` (`none` for an unparseable body,
and JSON `null` decodes to Python `None`); `now` is the server clock; the
result pairs the HTTP outcome with the store contents after the call.
Evaluation follows source order: the status short-circuit, then field
resolution (pure), then `parse_timestamp` - whose `datetime.fromtimestamp`
can raise before validation is ever reached - then the `float(...)`
validation, then the append. -/
def location (data : Option JsonVal) (now : String) (store : List Row) :
    LocResponse × List Row :=
  match data with
  | none => (.missingJson, store)
  | some .null => (.missingJson, store)
  | some (.obj fields) =>
    if isStatus fields then (.ignored, store)
    else
      match parse_timestamp fields now with
      | none => (.valueError, store)
      | some ts =>
        match pyFloat (resolveLat fields), pyFloat (resolveLon fields) with
        | some la, some lo => (.ok, store ++ [mkRow fields now ts la lo])
        | _, _ => (.badLatLon, store)
  | some _ => (.attrError, store)

/-- First-match association lookup: Python `d.get(k)` (dicts never hold
duplicate keys, so first match is the key's entry). -/
def lookupKey {α : Type} : List (String × α) → String → Option α
  | [], _ => none
  | (k, v) :: t, d => if k = d then some v else lookupKey t d

/-- Python `d[k] = v` on an insertion-ordered dict: overwrite the existing
entry in place, else append a new entry at the end. -/
def dictInsert {α : Type} : List (String × α) → String → α → List (String × α)
  | [], k, v => [(k, v)]
  | (k', v') :: t, k, v =>
    if k' = k then (k', v) :: t else (k', v') :: dictInsert t k v

/-- The `latest` dict built by `get_latest_locations`: one forward pass over
the store, `latest[row.device_id] = row`, last write wins. -/
def buildDict (rows : List Row) : List (String × Row) :=
  rows.foldl (fun acc r => dictInsert acc r.device_id r) []

/-- A row as emitted by `get_latest_locations`: its `latitude` / `longitude`
cells replaced by numeric coercions (`None` on failure). -/
structure Vehicle : Type where
  device_id : String
  latitude : Option PyFloat
  longitude : Option PyFloat
  accuracy : String
  provider : String
  timestamp_iso : String
  timestamp_raw : String
  received_at : String
  raw_json : String
deriving DecidableEq

/-- The coercion step of `get_latest_locations`: `float(...)` both
coordinate cells; if either raises, both become `None` (the `except` branch
overwrites both), and the row is kept either way. -/
def coerceVehicle (r : Row) : Vehicle :=
  match pyFloatOfString r.latitude, pyFloatOfString r.longitude with
  | some la, some lo =>
    ⟨r.device_id, some la, some lo, r.accuracy, r.provider, r.timestamp_iso,
      r.timestamp_raw, r.received_at, r.raw_json⟩
  | _, _ =>
    ⟨r.device_id, none, none, r.accuracy, r.provider, r.timestamp_iso,
      r.timestamp_raw, r.received_at, r.raw_json⟩

/-- `get_latest_locations` of `src/app.py`: latest row per device (a dict in
insertion order), coordinates coerced; a missing or unreadable store file
(`none`) yields `[]` via the bare `except`. -/
def get_latest_locations : Option (List Row) → List Vehicle
  | none => []
  | some rows => (buildDict rows).map (fun p => coerceVehicle p.2)

/-- `GET /api/vehicles` (`api_vehicles`): the latest-per-device list,
truncated to the first `limit` entries when `limit and limit > 0`. -/
def api_vehicles (store : Option (List Row)) (limit : Int) : List Vehicle :=
  let vehicles := get_latest_locations store
  if 0 < limit then vehicles.take limit.toNat else vehicles

/-- `GET /api/vehicles/{device_id}` (`api_vehicle`): first entry of the
latest-per-device list whose `device_id` matches; `none` is the `404`
response. -/
def api_vehicle (device_id : String) (store : Option (List Row)) : Option Vehicle :=
  (get_latest_locations store).find? (fun v => v.device_id == device_id)

/-- Python's `rows[-limit:]` for an arbitrary integer `limit` (the slice in
`recent_locations`): a negative start index counts from the end and is
clamped at 0; `-0` is just `0`, so `limit = 0` slices the whole list. -/
def pySliceFromNeg (rows : List Row) (limit : Int) : List Row :=
  let start : Int := -limit
  if start < 0 then
    let s : Int := (rows.length : Int) + start
    if s < 0 then rows else rows.drop s.toNat
  else rows.drop start.toNat

/-- `GET /locations/recent` (`recent_locations`): the `rows = reader[-limit:]`
slice of the store; a missing or unreadable store yields `[]`. -/
def recent_locations (store : Option (List Row)) (limit : Int) : List Row :=
  match store with
  | none => []
  | some rows => pySliceFromNeg rows limit

/-- `GET /api/locations/all` (`api_locations_all`): the full raw history;
a missing or unreadable store yields `[]`. -/
def api_locations_all : Option (List Row) → List Row
  | none => []
  | some rows => rows

/-- Per-connection stream state: `last_sent` maps a device id to the
coordinate pair last pushed for it. -/
abbrev Coords : Type := Option PyFloat × Option PyFloat

/-- Python `==` on floats: NaN is not equal to anything (the tuples compared
in `api_stream` are rebuilt from fresh float objects every poll, so the
identity shortcut never applies to NaN). -/
def pyFloatEq : PyFloat → PyFloat → Bool
  | .finite a, .finite b => a == b
  | .inf, .inf => true
  | .ninf, .ninf => true
  | _, _ => false

/-- Python `==` on the optional coordinates (`None == None` holds). -/
def optFloatEq : Option PyFloat → Option PyFloat → Bool
  | none, none => true
  | some a, some b => pyFloatEq a b
  | _, _ => false

/-- Python `==` on a `(latitude, longitude)` tuple. -/
def coordsEq (a b : Coords) : Bool :=
  optFloatEq a.1 b.1 && optFloatEq a.2 b.2

/-- The change test of one vehicle against `last_sent`:
`last_sent.get(dev) != coords` (a first-seen device compares `None` against
a tuple and therefore counts as changed). -/
def changedAt (lastSent : List (String × Coords)) (v : Vehicle) : Bool :=
  match lookupKey lastSent v.device_id with
  | none => true
  | some c => !(coordsEq c (v.latitude, v.longitude))

/-- The body of one poll iteration of `api_stream`: walk the vehicle list,
collect changed vehicles in order while updating `last_sent` in place. -/
def streamStep (lastSent : List (String × Coords)) :
    List Vehicle → List (String × Coords) × List Vehicle
  | [] => (lastSent, [])
  | v :: vs =>
    if changedAt lastSent v then
      let r := streamStep (dictInsert lastSent v.device_id (v.latitude, v.longitude)) vs
      (r.1, v :: r.2)
    else streamStep lastSent vs

/-- One full poll interval of the `GET /api/stream` connection loop: reduce
the store, diff against `last_sent`, and emit one event carrying the full
changed list iff any vehicle changed (`none` = nothing is written this
interval). -/
def streamIter (lastSent : List (String × Coords)) (store : Option (List Row)) :
    List (String × Coords) × Option (List Vehicle) :=
  let vehicles := get_latest_locations store
  let r := streamStep lastSent vehicles
  (r.1, if r.2.isEmpty then none else some r.2)

/-- Right-biased fallback on options (used to state last-write-wins). -/
def optOr {α : Type} : Option α → Option α → Option α
  | some x, _ => some x
  | none, b => b

theorem optOr_none_right {α : Type} (x : Option α) : optOr x none = x := by
  cases x <;> rfl

theorem optOr_assoc {α : Type} (a b c : Option α) :
    optOr (optOr a b) c = optOr a (optOr b c) := by
  cases a <;> rfl

theorem getLast?_cons_or {α : Type} (x : α) (l : List α) :
    (x :: l).getLast? = optOr l.getLast? (some x) := by
  induction l generalizing x with
  | nil => simp [List.getLast?_singleton, optOr]
  | cons y ys ih =>
    rw [List.getLast?_cons_cons, ih y]
    cases ys.getLast? <;> rfl

theorem lookupKey_dictInsert {α : Type} (l : List (String × α)) (k d : String) (v : α) :
    lookupKey (dictInsert l k v) d = if d = k then some v else lookupKey l d := by
  induction l with
  | nil =>
    simp only [dictInsert, lookupKey]
    by_cases h : d = k
    · rw [if_pos h.symm, if_pos h]
    · rw [if_neg (fun hh => h hh.symm), if_neg h]
  | cons p t ih =>
    obtain ⟨k', v'⟩ := p
    by_cases h1 : k' = k
    · subst h1
      simp only [dictInsert, if_pos rfl, lookupKey]
      by_cases h2 : k' = d
      · rw [if_pos h2, if_pos h2.symm]
      · rw [if_neg h2, if_neg (fun hh => h2 hh.symm), if_neg h2]
    · simp only [dictInsert, if_neg h1, lookupKey, ih]
      by_cases h2 : k' = d
      · simp only [if_pos h2]
        rw [if_neg (fun hdk => h1 (h2.trans hdk))]
      · simp only [if_neg h2]

theorem mem_keys_dictInsert {α : Type} (l : List (String × α)) (k d : String) (v : α)
    (h : d ∈ (dictInsert l k v).map Prod.fst) : d ∈ l.map Prod.fst ∨ d = k := by
  induction l with
  | nil =>
    rw [dictInsert] at h
    simp at h
    exact Or.inr h
  | cons p t ih =>
    obtain ⟨k', v'⟩ := p
    by_cases h1 : k' = k
    · rw [dictInsert, if_pos h1, List.map_cons, List.mem_cons] at h
      rcases h with h | h
      · exact Or.inl (by rw [List.map_cons, List.mem_cons]; exact Or.inl h)
      · exact Or.inl (by rw [List.map_cons, List.mem_cons]; exact Or.inr h)
    · rw [dictInsert, if_neg h1, List.map_cons, List.mem_cons] at h
      rcases h with h | h
      · exact Or.inl (by rw [List.map_cons, List.mem_cons]; exact Or.inl h)
      · rcases ih h with h2 | h2
        · exact Or.inl (by rw [List.map_cons, List.mem_cons]; exact Or.inr h2)
        · exact Or.inr h2

theorem nodup_keys_dictInsert {α : Type} (l : List (String × α)) (k : String) (v : α)
    (h : (l.map Prod.fst).Nodup) : ((dictInsert l k v).map Prod.fst).Nodup := by
  induction l with
  | nil => simp [dictInsert]
  | cons p t ih =>
    obtain ⟨k', v'⟩ := p
    rw [List.map_cons, List.nodup_cons] at h
    obtain ⟨hk', ht⟩ := h
    by_cases h1 : k' = k
    · subst h1
      rw [dictInsert, if_pos rfl, List.map_cons, List.nodup_cons]
      exact ⟨hk', ht⟩
    · rw [dictInsert, if_neg h1, List.map_cons, List.nodup_cons]
      refine ⟨fun hmem => ?_, ih ht⟩
      rcases mem_keys_dictInsert t k k' v hmem with h2 | h2
      · exact hk' h2
      · exact h1 h2

theorem pairOk_dictInsert (l : List (String × Row)) (k : String) (r : Row)
    (hr : r.device_id = k) (h : ∀ p ∈ l, p.2.device_id = p.1) :
    ∀ p ∈ dictInsert l k r, p.2.device_id = p.1 := by
  induction l with
  | nil =>
    intro p hp
    simp [dictInsert] at hp
    subst hp; exact hr
  | cons q t ih =>
    obtain ⟨k', v'⟩ := q
    intro p hp
    by_cases h1 : k' = k
    · subst h1
      rw [dictInsert, if_pos rfl, List.mem_cons] at hp
      rcases hp with hp | hp
      · subst hp; exact hr
      · exact h p (List.mem_cons_of_mem _ hp)
    · rw [dictInsert, if_neg h1, List.mem_cons] at hp
      rcases hp with hp | hp
      · subst hp; exact h _ (List.mem_cons_self _ _)
      · exact ih (fun p hp => h p (List.mem_cons_of_mem _ hp)) p hp

theorem lookupKey_buildDict_aux (rows : List Row) :
    ∀ (acc : List (String × Row)) (d : String),
      lookupKey (rows.foldl (fun a r => dictInsert a r.device_id r) acc) d =
        optOr ((rows.filter (fun r => r.device_id == d)).getLast?) (lookupKey acc d) := by
  induction rows with
  | nil => intro acc d; rfl
  | cons r rs ih =>
    intro acc d
    rw [List.foldl_cons, ih, List.filter_cons]
    by_cases h : r.device_id = d
    · rw [if_pos (by simpa using h), getLast?_cons_or, optOr_assoc]
      congr 1
      rw [lookupKey_dictInsert, if_pos h.symm]
      rfl
    · rw [if_neg (by simpa using h)]
      congr 1
      rw [lookupKey_dictInsert, if_neg (fun hh => h hh.symm)]

theorem lookupKey_buildDict (rows : List Row) (d : String) :
    lookupKey (buildDict rows) d = (rows.filter (fun r => r.device_id == d)).getLast? := by
  rw [buildDict, lookupKey_buildDict_aux rows [] d]
  exact optOr_none_right _

theorem pairOk_buildDict_aux (rows : List Row) :
    ∀ acc : List (String × Row), (∀ p ∈ acc, p.2.device_id = p.1) →
      ∀ p ∈ rows.foldl (fun a r => dictInsert a r.device_id r) acc, p.2.device_id = p.1 := by
  induction rows with
  | nil => intro acc h; exact h
  | cons r rs ih =>
    intro acc h
    rw [List.foldl_cons]
    exact ih _ (pairOk_dictInsert acc r.device_id r rfl h)

theorem pairOk_buildDict (rows : List Row) : ∀ p ∈ buildDict rows, p.2.device_id = p.1 :=
  pairOk_buildDict_aux rows [] (by simp)

theorem nodup_keys_buildDict_aux (rows : List Row) :
    ∀ acc : List (String × Row), (acc.map Prod.fst).Nodup →
      ((rows.foldl (fun a r => dictInsert a r.device_id r) acc).map Prod.fst).Nodup := by
  induction rows with
  | nil => intro acc h; exact h
  | cons r rs ih =>
    intro acc h
    rw [List.foldl_cons]
    exact ih _ (nodup_keys_dictInsert acc r.device_id r h)

theorem nodup_keys_buildDict (rows : List Row) : ((buildDict rows).map Prod.fst).Nodup :=
  nodup_keys_buildDict_aux rows [] (by simp)

theorem coerceVehicle_device_id (r : Row) : (coerceVehicle r).device_id = r.device_id := by
  cases hla : pyFloatOfString r.latitude <;> cases hlo : pyFloatOfString r.longitude <;>
    simp [coerceVehicle, hla, hlo]

theorem find?_coerce (l : List (String × Row)) (d : String)
    (h : ∀ p ∈ l, p.2.device_id = p.1) :
    (l.map (fun p => coerceVehicle p.2)).find? (fun v => v.device_id == d) =
      (lookupKey l d).map coerceVehicle := by
  induction l with
  | nil => rfl
  | cons p t ih =>
    obtain ⟨k, r⟩ := p
    have hk : r.device_id = k := h (k, r) (List.mem_cons_self _ _)
    rw [List.map_cons, List.find?_cons]
    by_cases hd : k = d
    · have : ((coerceVehicle r).device_id == d) = true := by
        rw [coerceVehicle_device_id, hk, hd]; exact beq_self_eq_true d
      rw [this]
      simp only [lookupKey, if_pos hd]
      rfl
    · have : ((coerceVehicle r).device_id == d) = false := by
        rw [coerceVehicle_device_id, hk]
        exact beq_eq_false_iff_ne.mpr hd
      rw [this]
      simp only [lookupKey, if_neg hd]
      exact ih (fun q hq => h q (List.mem_cons_of_mem _ hq))

theorem devids_get_latest (rows : List Row) :
    (get_latest_locations (some rows)).map (fun v => v.device_id) =
      (buildDict rows).map Prod.fst := by
  rw [get_latest_locations, List.map_map]
  exact List.map_congr_left fun p hp => by
    simp [coerceVehicle_device_id, pairOk_buildDict rows p hp]

theorem nodup_devids_get_latest (rows : List Row) :
    ((get_latest_locations (some rows)).map (fun v => v.device_id)).Nodup := by
  rw [devids_get_latest]
  exact nodup_keys_buildDict rows

theorem changedAt_dictInsert (ls : List (String × Coords)) (k : String) (c : Coords)
    (v : Vehicle) (hne : v.device_id ≠ k) :
    changedAt (dictInsert ls k c) v = changedAt ls v := by
  rw [changedAt, changedAt, lookupKey_dictInsert, if_neg hne]

theorem streamStep_filter (vs : List Vehicle) :
    ∀ ls : List (String × Coords), ((vs.map (fun v => v.device_id)).Nodup) →
      (streamStep ls vs).2 = vs.filter (changedAt ls) := by
  induction vs with
  | nil => intro ls _; rfl
  | cons v vs ih =>
    intro ls h
    rw [List.map_cons, List.nodup_cons] at h
    obtain ⟨hv, hnd⟩ := h
    rw [List.filter_cons]
    cases hc : changedAt ls v with
    | true =>
      rw [if_pos rfl]
      show (streamStep ls (v :: vs)).2 = v :: vs.filter (changedAt ls)
      rw [streamStep, if_pos hc]
      simp only
      rw [ih _ hnd]
      congr 1
      exact List.filter_congr fun u hu =>
        changedAt_dictInsert ls v.device_id _ u
          (fun he => hv (he ▸ List.mem_map_of_mem (fun w => w.device_id) hu))
    | false =>
      rw [if_neg (by simp [hc])]
      rw [streamStep, if_neg (by simp [hc])]
      exact ih _ hnd

theorem natReprAux_le_length (n : Nat) : ∀ acc : List Char, acc.length ≤ (natReprAux n acc).length := by
  induction n using Nat.strong_induction_on with
  | _ n ih =>
    intro acc
    match n with
    | 0 => simp [natReprAux]
    | m + 1 =>
      rw [natReprAux]
      calc acc.length ≤ (Char.ofNat (48 + (m + 1) % 10) :: acc).length := by simp
        _ ≤ _ := ih ((m + 1) / 10) (Nat.div_lt_self (Nat.succ_pos m) (by decide)) _

theorem natRepr_length_pos (n : Nat) : 0 < (natRepr n).length := by
  rw [natRepr]
  by_cases h : n = 0
  · rw [if_pos h]; decide
  · rw [if_neg h]
    obtain ⟨m, rfl⟩ := Nat.exists_eq_succ_of_ne_zero h
    rw [String.length_mk, natReprAux]
    calc 0 < (Char.ofNat (48 + (m + 1) % 10) :: ([] : List Char)).length := by simp
      _ ≤ _ := natReprAux_le_length _ _

theorem natRepr_ne_empty (n : Nat) : natRepr n ≠ "" := by
  intro h
  have := natRepr_length_pos n
  rw [h] at this
  simp [String.length_empty] at this

theorem ratRepr_ne_empty (q : ℚ) : ratRepr q ≠ "" := by
  intro h
  have hl := congrArg String.length h
  rw [ratRepr, String.length_append, String.length_append, String.length_empty] at hl
  have := natRepr_length_pos q.num.natAbs
  omega

theorem dumpsVal_arr_ne_empty (xs : List JsonVal) : dumpsVal (.arr xs) ≠ "" := by
  intro h
  have hl := congrArg String.length h
  rw [dumpsVal, String.length_append, String.length_append, String.length_empty] at hl
  rw [show ("[".length) = 1 by decide] at hl
  omega

theorem dumpsVal_obj_ne_empty (fs : List (String × JsonVal)) : dumpsVal (.obj fs) ≠ "" := by
  intro h
  have hl := congrArg String.length h
  rw [dumpsVal, String.length_append, String.length_append, String.length_empty] at hl
  rw [show ("\x7b".length) = 1 by decide] at hl
  omega

theorem cellStr_ne_empty_of_truthy (v : JsonVal) (h : truthy v = true) : cellStr v ≠ "" := by
  cases v with
  | null => simp [truthy] at h
  | bool b =>
    rw [truthy] at h
    subst h
    rw [cellStr]
    decide
  | num q => exact ratRepr_ne_empty q
  | str s =>
    rw [truthy] at h
    simpa [cellStr] using h
  | arr xs => exact dumpsVal_arr_ne_empty xs
  | obj fs => exact dumpsVal_obj_ne_empty fs

theorem truthy_pyOr_right (a b : JsonVal) (hb : truthy b = true) : truthy (pyOr a b) = true := by
  rw [pyOr]
  by_cases h : truthy a <;> simp [h, hb]

theorem truthy_resolveDevice (fields : List (String × JsonVal)) :
    truthy (resolveDevice fields) = true :=
  truthy_pyOr_right _ _ (truthy_pyOr_right _ _ (truthy_pyOr_right _ _ (by decide)))

/-- Definition following the spec words for C2: the resolved coordinate value
"parses as a finite number" (the code's `float(...)` also accepts the
non-finite `inf` / `nan`, which this predicate rejects). -/
def specParsesFinite (v : JsonVal) : Bool :=
  match pyFloat v with
  | some (.finite _) => true
  | _ => false

/-- Definition following the spec words for C8: "first non-null" resolution
of the device id (the claim's reading, to compare against the code's
first-truthy `resolveDevice`). -/
def specFirstNonNullDevice (fields : List (String × JsonVal)) : JsonVal :=
  match objGet fields "device_id" with
  | .null =>
    match objGet fields "tid" with
    | .null =>
      match objGet fields "topic" with
      | .null => .str "unknown"
      | v => v
    | v => v
  | v => v

/-- A sample store row (a well-formed position report for device `bus1`). -/
def rowA : Row :=
  ⟨"bus1", "40.1", "-8.6", "", "", "2023-11-14T22:13:20+00:00", "1700000000",
    "2023-11-14T22:13:21+00:00", ""⟩

/-- A second sample store row for the same device with other coordinates. -/
def rowB : Row :=
  ⟨"bus1", "41.5", "-8.0", "10", "gps", "2023-11-15T00:00:00+00:00", "1700006400",
    "2023-11-15T00:00:01+00:00", ""⟩

/-- Claim C1: last-write-wins reduction.  For every store history,
`GET /api/vehicles/{device_id}` returns exactly the coerced form of the
record for that device that was appended last in arrival order (so when the
device appears, the coordinates are those of the record appended last, and
client-supplied timestamp cells never influence the choice - the history is
universally quantified, timestamps included). -/
theorem c1_last_write_wins (rows : List Row) (d : String) :
    api_vehicle d (some rows) =
      ((rows.filter (fun r => r.device_id == d)).getLast?).map coerceVehicle := by
  rw [api_vehicle, get_latest_locations, find?_coerce _ _ (pairOk_buildDict rows),
    lookupKey_buildDict]

/-- Claim C2 (amended): for every JSON-object payload that is not a status
message and whose timestamp parse succeeds (a numeric `tst` outside the
supported datetime range instead crashes the request with an unhandled
`ValueError` at `datetime.fromtimestamp`, before validation runs),
`POST /location` answers `400 bad lat/lon` iff the resolved latitude or
longitude fails Python's `float(...)` conversion (which also accepts the
non-finite strings `inf` / `nan`), and on that failure the store is
unchanged. -/
theorem c2_badlatlon_iff (fields : List (String × JsonVal)) (now : String)
    (store : List Row) (hns : isStatus fields = false)
    (hts : (parse_timestamp fields now).isSome = true) :
    ((location (some (.obj fields)) now store).1 = .badLatLon ↔
      (pyFloat (resolveLat fields) = none ∨ pyFloat (resolveLon fields) = none)) ∧
      ((location (some (.obj fields)) now store).1 = .badLatLon →
        (location (some (.obj fields)) now store).2 = store) := by
  obtain ⟨ts, hp⟩ := Option.isSome_iff_exists.mp hts
  cases hla : pyFloat (resolveLat fields) <;> cases hlo : pyFloat (resolveLon fields) <;>
    simp [location, hns, hp, hla, hlo]

/-- Claim C2 witness: a payload with an unparseable latitude is rejected
with nothing persisted. -/
theorem c2_witness :
    (location (some (.obj [("lat", JsonVal.str "x"), ("lon", JsonVal.num 1)])) "T" []).2 = [] :=
  (c2_badlatlon_iff [("lat", JsonVal.str "x"), ("lon", JsonVal.num 1)] "T" [] (by decide)
    (by decide)).2 (by decide)

/-- The error path excluded by the amended C2: an out-of-range numeric
`tst` makes `datetime.fromtimestamp` raise before coordinate validation, so
even an unparseable latitude yields the unhandled-exception outcome, not
`400 bad lat/lon`; nothing is persisted. -/
theorem location_tst_out_of_range :
    location (some (.obj [("lat", JsonVal.str "x"), ("lon", JsonVal.num 1),
        ("tst", JsonVal.num 1000000000000)])) "T" [] = (.valueError, []) ∧
      pyFromtimestampOk 1000000000000 = false := by
  refine ⟨by decide, by decide⟩

/-- Claim C2 counterexample: the payload with latitude `"inf"` does not
parse as a finite number, yet the endpoint answers `201 ok` and appends a
record - refuting the claimed "400 iff not finite" equivalence. -/
theorem c2_counterexample :
    (location (some (.obj [("lat", JsonVal.str "inf"), ("lon", JsonVal.str "0")])) "T" []).1 =
        .ok ∧
      (location (some (.obj [("lat", JsonVal.str "inf"), ("lon", JsonVal.str "0")])) "T" []).2.length =
        1 ∧
      specParsesFinite (resolveLat [("lat", JsonVal.str "inf"), ("lon", JsonVal.str "0")]) =
        false := by
  refine ⟨by decide, by decide, by decide⟩

/-- Claim C3: a request body that decodes as valid JSON but is not a JSON
object reaches `data.get("_type")` on a non-dict and raises an unhandled
`AttributeError` (HTTP 500, a stack trace, not the claimed structured
`400 bad lat/lon`); nothing is persisted. -/
theorem c3_nonobject_unhandled :
    location (some (.num 5)) "T" [] = (.attrError, []) ∧
      location (some (.str "abc")) "T" [] = (.attrError, []) ∧
      location (some (.arr [JsonVal.num 1])) "T" [] = (.attrError, []) :=
  ⟨rfl, rfl, rfl⟩

/-- Claim C4 (amended): field resolution is first-truthy, not
first-non-null: the `lat` field is used when truthy, otherwise `latitude`
is consulted (and symmetrically for `lon` / `longitude`); in particular a
payload with `"lat": 0` and no `latitude` field resolves the latitude to
null and is rejected with `400 bad lat/lon`, nothing appended. -/
theorem c4_first_truthy (fields : List (String × JsonVal)) (now : String) (store : List Row) :
    resolveLat fields =
        (if truthy (objGet fields "lat") then objGet fields "lat"
          else objGet fields "latitude") ∧
      resolveLon fields =
        (if truthy (objGet fields "lon") then objGet fields "lon"
          else objGet fields "longitude") ∧
      location (some (.obj [("lat", JsonVal.num 0), ("lon", JsonVal.num 5)])) now store =
        (.badLatLon, store) :=
  ⟨rfl, rfl, rfl⟩

/-- Claim C4 counterexample: `lat` is present and non-null (the number 0),
so the claim says latitude 0 is ingested; the code instead rejects the
payload with `400 bad lat/lon` and stores nothing, because `0` is falsy in
the `or` chain and `latitude` is absent. -/
theorem c4_counterexample :
    location (some (.obj [("lat", JsonVal.num 0), ("lon", JsonVal.num 5)])) "T" [] =
        (.badLatLon, []) ∧
      objGet [("lat", JsonVal.num 0), ("lon", JsonVal.num 5)] "lat" = JsonVal.num 0 :=
  ⟨rfl, rfl⟩

/-- Claim C5: a payload whose `_type` discriminator is `"status"` is
answered `200 ignored` and the store is unchanged. -/
theorem c5_status_ignored (fields : List (String × JsonVal)) (now : String)
    (store : List Row) (h : isStatus fields = true) :
    location (some (.obj fields)) now store = (.ignored, store) := by
  simp [location, h]

/-- Claim C5 witness: the status payload of the spec example. -/
theorem c5_witness :
    location (some (.obj [("_type", JsonVal.str "status")])) "T" [] = (.ignored, []) :=
  c5_status_ignored [("_type", JsonVal.str "status")] "T" [] (by decide)

/-- Claim C6: change-only stream emission.  In one poll iteration over any
store and any per-connection `last_sent` state, the changed set is exactly
the vehicles whose coordinate pair differs from that connection's
`last_sent` entry (first-seen devices included), computed against the state
at the start of the iteration; one event carrying the full changed list is
emitted iff that set is nonempty, and nothing is emitted otherwise. -/
theorem c6_stream_change_only (rows : List Row) (ls : List (String × Coords)) :
    (streamIter ls (some rows)).2 =
      (if ((get_latest_locations (some rows)).filter (changedAt ls)).isEmpty then none
        else some ((get_latest_locations (some rows)).filter (changedAt ls))) := by
  rw [streamIter]
  simp only
  rw [streamStep_filter _ ls (nodup_devids_get_latest rows)]

/-- Claim C7: when the store file is missing or unreadable (`none`), every
read path - the latest-per-device reduction, the recent-records query, the
full raw history, and the vehicle endpoints built on the reduction -
returns an empty result, never an error. -/
theorem c7_store_unavailable_empty (limit : Int) (d : String) :
    get_latest_locations none = [] ∧ recent_locations none limit = [] ∧
      api_locations_all none = [] ∧ api_vehicles none limit = [] ∧
      api_vehicle d none = none := by
  refine ⟨rfl, rfl, rfl, ?_, rfl⟩
  by_cases h : 0 < limit <;> simp [api_vehicles, get_latest_locations, h]

/-- Claim C8 (amended): the stored `device_id` cell is the rendering of the
first truthy value in the chain `device_id`, `tid`, `topic`, else the
literal `"unknown"` (falsy non-null values such as `""` or `0` fall
through), and it is never the empty string; any record the call appends
carries exactly that cell. -/
theorem c8_amended_device_id (fields : List (String × JsonVal)) (now : String)
    (store : List Row) :
    truthy (resolveDevice fields) = true ∧
      cellStr (resolveDevice fields) ≠ "" ∧
      ((location (some (.obj fields)) now store).2 = store ∨
        ∃ ts la lo,
          (location (some (.obj fields)) now store).2 = store ++ [mkRow fields now ts la lo] ∧
            (mkRow fields now ts la lo).device_id = cellStr (resolveDevice fields)) := by
  refine ⟨truthy_resolveDevice fields, cellStr_ne_empty_of_truthy _ (truthy_resolveDevice fields), ?_⟩
  by_cases hs : isStatus fields
  · exact Or.inl (by simp [location, hs])
  · cases hts : parse_timestamp fields now with
    | none => exact Or.inl (by simp [location, hs, hts])
    | some ts =>
      cases hla : pyFloat (resolveLat fields) with
      | none => exact Or.inl (by simp [location, hs, hts, hla])
      | some la =>
        cases hlo : pyFloat (resolveLon fields) with
        | none => exact Or.inl (by simp [location, hs, hts, hla, hlo])
        | some lo =>
          exact Or.inr ⟨ts, la, lo, by simp [location, hs, hts, hla, hlo], rfl⟩

/-- Claim C8 witness: a concrete payload whose device cell is nonempty. -/
theorem c8_witness :
    cellStr (resolveDevice [("device_id", JsonVal.str "d7")]) ≠ "" :=
  (c8_amended_device_id [("device_id", JsonVal.str "d7")] "T" []).2.1

/-- Claim C8 counterexample: with `"device_id": ""` present (non-null) and
`"tid": "t1"`, the first non-null value is the empty string, but the code
stores `"t1"` - the fallback is driven by truthiness, not nullness. -/
theorem c8_counterexample :
    ((location (some (.obj [("device_id", JsonVal.str ""), ("tid", JsonVal.str "t1"),
          ("lat", JsonVal.num 1), ("lon", JsonVal.num 2)])) "T" []).2.map
        (fun r => r.device_id)) = ["t1"] ∧
      specFirstNonNullDevice [("device_id", JsonVal.str ""), ("tid", JsonVal.str "t1"),
          ("lat", JsonVal.num 1), ("lon", JsonVal.num 2)] = JsonVal.str "" ∧
      ("t1" : String) ≠ "" :=
  ⟨rfl, rfl, by decide⟩

/-- Claim C9: read determinism of `GET /api/vehicles` - for a fixed store
and limit, any two invocations (no intervening writes) return identical
content, including element order. -/
theorem c9_read_deterministic (store : Option (List Row)) (limit : Int)
    (r₁ r₂ : List Vehicle) (h₁ : r₁ = api_vehicles store limit)
    (h₂ : r₂ = api_vehicles store limit) : r₁ = r₂ :=
  h₁.trans h₂.symm

/-- Claim C9 witness: two evaluations on a concrete two-row store agree. -/
theorem c9_witness :
    api_vehicles (some [rowA, rowB]) 0 = api_vehicles (some [rowA, rowB]) 0 :=
  c9_read_deterministic (some [rowA, rowB]) 0 _ _ rfl rfl

/-- Claim C10: `GET /locations/recent` with `limit = 0` returns the whole
history in arrival order (the `[-0:]` slice is the full list), and with a
positive limit returns the suffix of length `min limit length` of the
history (the most recent records, in arrival order). -/
theorem c10_recent_slice (rows : List Row) (limit : Int) :
    recent_locations (some rows) 0 = rows ∧
      (0 < limit →
        (recent_locations (some rows) limit).length = min limit.toNat rows.length ∧
          (recent_locations (some rows) limit).IsSuffix rows) := by
  constructor
  · simp [recent_locations, pySliceFromNeg]
  · intro hl
    have hneg : (-limit : Int) < 0 := by omega
    simp only [recent_locations, pySliceFromNeg]
    rw [if_pos hneg]
    by_cases hs : ((rows.length : Int) + -limit) < 0
    · rw [if_pos hs]
      exact ⟨by omega, List.suffix_refl rows⟩
    · rw [if_neg hs]
      refine ⟨?_, List.drop_suffix _ _⟩
      rw [List.length_drop]
      omega

/-- Claim C10 witness: a two-row store with `limit = 0` and `limit = 1`. -/
theorem c10_witness :
    recent_locations (some [rowA, rowB]) 0 = [rowA, rowB] ∧
      ((recent_locations (some [rowA, rowB]) 1).length =
          min (Int.toNat 1) ([rowA, rowB].length) ∧
        (recent_locations (some [rowA, rowB]) 1).IsSuffix [rowA, rowB]) :=
  ⟨(c10_recent_slice [rowA, rowB] 1).1, (c10_recent_slice [rowA, rowB] 1).2 (by decide)⟩

end PTTrack
